import Mathlib

/-!
Verification of the graceful-shutdown server wrapper (package `graceful`).

The development shallowly embeds the pieces of `graceful.go` that the
checked properties concern:

* the connection-tracker goroutine of `Server.Serve` (the `for`/`select`
  loop over the `add`, `remove`, `stop` and `kill` channels) as a step
  function `trackerStep` on a state holding the optional drain notifier
  and the tracked connection set;
* the code of `Server.Serve` that runs after `srv.Server.Serve(listener)`
  returns (closing `stopListener`, requesting drain, and racing the drain
  notification against `time.After(srv.Timeout)`) as the trace function
  `servePostLoop`;
* the shutdown-watcher goroutine (the `select` over `stopListener`, `sig`
  and `cancel` followed by the teardown sequence) as a small labelled
  transition system, so that properties over arbitrary interleavings of
  the shutdown sources can be stated;
* the `ConnState` hook installed on the wrapped `http.Server` as a
  function returning the ordered list of actions the hook performs;
* `ListenAndServeTLS` as a pure function of the supplied TLS
  configuration and the outcomes of certificate loading and listening.

Connection handles and notifiers are opaque identifiers, modelled as
naturals. Close errors are modelled as an arbitrary assignment of an
optional error to each connection; the tracker discards them exactly as
`k.Close()` does in the source.
-/

namespace Graceful

abbrev Conn := Nat

abbrev Notifier := Nat

/-- The `http.ConnState` values reported by the engine. -/
inductive ConnState where
| stateNew
| stateActive
| stateIdle
| stateHijacked
| stateClosed
deriving DecidableEq

/-- Messages consumed by the connection-tracker goroutine: the four
channels `add`, `remove`, `stop` (carrying the drain notifier) and
`kill` of `Server.Serve`. -/
inductive TrackerMsg where
| add (c : Conn)
| remove (c : Conn)
| stop (d : Notifier)
| kill
deriving DecidableEq

/-- State of the tracker goroutine: the local variable
`done chan struct\x7b\x7d` (nil until a `stop` message assigns it) and the
`connections` map, whose keys form a duplicate-free list here. -/
structure TrackerState where
  done : Option Notifier
  connections : List Conn
deriving DecidableEq

/-- Tracker state at goroutine start: `done` is nil and the map empty. -/
def initTracker : TrackerState := { done := none, connections := [] }

/-- `connections[conn] = struct\x7b\x7d\x7b\x7d`: map insertion, a no-op when the
key is already present. -/
def insertConn (cs : List Conn) (c : Conn) : List Conn :=
  if cs.contains c then cs else cs ++ [c]

/-- `delete(connections, conn)`: map deletion, a no-op when the key is
absent. -/
def removeConn (cs : List Conn) (c : Conn) : List Conn :=
  cs.filter (fun x => x != c)

/-- Externally visible effects of processing one tracker message:
which notifier (if any) was signalled via `done <- struct\x7b\x7d\x7b\x7d`, and
which connections had `Close` called on them. -/
structure TrackerEffects where
  signaled : Option Notifier
  closedConns : List Conn
deriving DecidableEq

def noEffects : TrackerEffects := { signaled := none, closedConns := [] }

/-- One iteration of the tracker goroutine body: the `select` over
`add`, `remove`, `stop` and `kill` applied to the arriving message.
`closeErr` assigns to each connection the error its `Close` call would
return; the source discards that value (`k.Close()`), and so does this
step. The result is the effects together with `some` next state, or
`none` when the goroutine `return`s. -/
def trackerStep (closeErr : Conn → Option String) (s : TrackerState)
    (m : TrackerMsg) : TrackerEffects × Option TrackerState :=
  match m with
  | .add c =>
      (noEffects, some { s with connections := insertConn s.connections c })
  | .remove c =>
      let cs := removeConn s.connections c
      if s.done.isSome && cs.isEmpty then
        ({ signaled := s.done, closedConns := [] }, none)
      else
        (noEffects, some { s with connections := cs })
  | .stop d =>
      if s.connections.isEmpty then
        ({ signaled := some d, closedConns := [] }, none)
      else
        (noEffects, some { done := some d, connections := s.connections })
  | .kill =>
      let _ := s.connections.map closeErr
      ({ signaled := none, closedConns := s.connections }, none)

/-- Run of the tracker goroutine over a list of arriving messages,
collecting the effects of each processed message. Once a step returns
`none` the goroutine has exited: remaining messages are not processed
and contribute no effects. -/
def trackerRun (closeErr : Conn → Option String) (s : TrackerState) :
    List TrackerMsg → List TrackerEffects × Option TrackerState
  | [] => ([], some s)
  | m :: ms =>
      match trackerStep closeErr s m with
      | (e, none) => ([e], none)
      | (e, some s2) =>
          let r := trackerRun closeErr s2 ms
          (e :: r.1, r.2)

/-- Steps `Server.Serve` performs after `srv.Server.Serve(listener)`
returns, in program order. -/
inductive OEffect where
| closeStopListener
| sendStop
| armTimer
| recvDone
| sendKill
| ret (err : Option String)
deriving DecidableEq

/-- The tail of `Server.Serve` after the serve loop returns with `err`:
`close(stopListener)`, then `stop <- done`, then — when `srv.Timeout > 0`
— a `select` racing `<-done` against `<-time.After(srv.Timeout)` that
sends on `kill` when the timer wins, and otherwise a bare `<-done`;
finally `return err`. `timeout` is the `time.Duration` field (an integer
nanosecond count) and `doneFirst` records which racer was ready first
when a race happens. -/
def servePostLoop (err : Option String) (timeout : Int) (doneFirst : Bool) :
    List OEffect :=
  [OEffect.closeStopListener, OEffect.sendStop] ++
    (if timeout > 0 then
      OEffect.armTimer ::
        (if doneFirst then [OEffect.recvDone] else [OEffect.sendKill])
    else
      [OEffect.recvDone]) ++
    [OEffect.ret err]

/-- Which of the two optional shutdown channels the caller supplied on
the `Server` value (`srv.Signal` and `srv.Cancel`). -/
structure ServeCfg where
  signalSupplied : Bool
  cancelSupplied : Bool
deriving DecidableEq

/-- Whether the local `sig` channel of `Server.Serve` is non-nil: it is
`srv.Signal` when supplied, and otherwise a freshly created default
signal channel unless `srv.Cancel` alone was supplied. -/
def sigPresent (cfg : ServeCfg) : Bool :=
  cfg.signalSupplied || !cfg.cancelSupplied

/-- Effects the shutdown-watcher goroutine can perform after its
`select` returns. `closeCancelChan` never occurs in the source; it is
included so its absence is a statable property. -/
inductive WEffect where
| signalStop
| closeSigChan
| disableKeepAlives
| closeListener
| closeCancelChan
deriving DecidableEq

/-- The straight-line teardown the watcher runs once its `select`
returns: `signal.Stop(sig)` and `close(sig)` when `sig` is non-nil, then
`srv.SetKeepAlivesEnabled(false)` and `listener.Close()`. -/
def watcherBody (sp : Bool) : List WEffect :=
  (if sp then [WEffect.signalStop, WEffect.closeSigChan] else []) ++
    [WEffect.disableKeepAlives, WEffect.closeListener]

/-- Global state for one `Serve` invocation, as far as the shutdown
interaction is concerned: which shutdown sources have fired, whether
`close(stopListener)` has happened, whether the watcher goroutine has
run its body and exited, whether `Serve` itself has returned, and the
accumulated trace of watcher effects. -/
structure TrigState where
  sigFired : Bool
  cancelFired : Bool
  stopClosed : Bool
  watcherDone : Bool
  serveDone : Bool
  trace : List WEffect
deriving DecidableEq

def initTrig : TrigState :=
  { sigFired := false, cancelFired := false, stopClosed := false,
    watcherDone := false, serveDone := false, trace := [] }

/-- Interleaving steps: a value arriving on `sig`, `cancel` being
closed, the orchestrator executing `close(stopListener)` after the
serve loop returns, the watcher waking from its `select` and running
its teardown, and `Serve` returning (which the source only reaches
after `close(stopListener)`). -/
inductive TAction where
| fireSig
| fireCancel
| closeStop
| watcherWake
| serveRet
deriving DecidableEq

/-- One interleaving step. `none` means the action is not enabled in
this state: a nil channel never fires, each one-shot event happens once,
the watcher wakes only when one of its three `select` cases is ready,
and `Serve` returns only after it has closed `stopListener`. -/
def tStep (cfg : ServeCfg) (s : TrigState) (a : TAction) : Option TrigState :=
  match a with
  | .fireSig =>
      if sigPresent cfg && !s.sigFired then some { s with sigFired := true }
      else none
  | .fireCancel =>
      if cfg.cancelSupplied && !s.cancelFired then
        some { s with cancelFired := true }
      else none
  | .closeStop =>
      if !s.stopClosed then some { s with stopClosed := true } else none
  | .watcherWake =>
      if !s.watcherDone && (s.stopClosed || s.sigFired || s.cancelFired) then
        some { s with watcherDone := true,
                      trace := s.trace ++ watcherBody (sigPresent cfg) }
      else none
  | .serveRet =>
      if s.stopClosed && !s.serveDone then some { s with serveDone := true }
      else none

/-- Run a schedule of interleaving steps; disabled actions are skipped. -/
def tRun (cfg : ServeCfg) (s : TrigState) : List TAction → TrigState
  | [] => s
  | a :: l =>
      match tStep cfg s a with
      | none => tRun cfg s l
      | some s2 => tRun cfg s2 l

/-- Actions the `ConnState` closure installed by `Server.Serve`
performs, in order, for one state-change event. -/
inductive HookAction where
| sendAdd (c : Conn)
| sendRemove (c : Conn)
| callObserver (c : Conn) (st : ConnState)
deriving DecidableEq

/-- The `ConnState` closure: a `switch` sending `StateActive` events to
the `add` channel and `StateClosed`/`StateIdle` events to the `remove`
channel, followed — when the caller set `srv.ConnState` (`hasHook`) — by
a call to that observer with the same connection and state. -/
def connStateHook (hasHook : Bool) (conn : Conn) (st : ConnState) :
    List HookAction :=
  (match st with
    | .stateActive => [HookAction.sendAdd conn]
    | .stateClosed => [HookAction.sendRemove conn]
    | .stateIdle => [HookAction.sendRemove conn]
    | _ => []) ++
    (if hasHook then [HookAction.callObserver conn st] else [])

/-- The part of `tls.Config` this module touches. -/
structure TLSCfg where
  nextProtos : Option (List String)
deriving DecidableEq

/-- Observable outcome of `ListenAndServeTLS`: the returned error,
whether `net.Listen` was reached and succeeded, whether the core
(`srv.Serve`) was started, and the `NextProtos` list of the copied
configuration at the point it is handed to `tls.NewListener`. -/
structure TLSOutcome where
  retErr : Option String
  listenerOpened : Bool
  serveStarted : Bool
  nextProtos : Option (List String)
deriving DecidableEq

/-- `ListenAndServeTLS`: copy the supplied `TLSConfig` (or start from an
empty one), default `NextProtos` to `["http/1.1"]` when unset, then load
the certificate pair, returning its error on failure before listening;
then listen, returning the listen error on failure; otherwise wrap the
listener and run `srv.Serve`. The outcomes of `tls.LoadX509KeyPair`,
`net.Listen` and `srv.Serve` are inputs (`loadErr`, `listenErr`,
`serveErr`), each `none` on success. -/
def listenAndServeTLS (supplied : Option TLSCfg) (loadErr : Option String)
    (listenErr : Option String) (serveErr : Option String) : TLSOutcome :=
  let config : TLSCfg :=
    match supplied with
    | none => { nextProtos := none }
    | some c => c
  let config : TLSCfg :=
    if config.nextProtos.isNone then { nextProtos := some ["http/1.1"] }
    else config
  match loadErr with
  | some e =>
      { retErr := some e, listenerOpened := false, serveStarted := false,
        nextProtos := config.nextProtos }
  | none =>
      match listenErr with
      | some e =>
          { retErr := some e, listenerOpened := false, serveStarted := false,
            nextProtos := config.nextProtos }
      | none =>
          { retErr := serveErr, listenerOpened := true, serveStarted := true,
            nextProtos := config.nextProtos }

/-- Invariant of the shutdown interaction: the effect trace is exactly
the watcher body once the watcher has run and empty before, and `Serve`
can only have returned after `stopListener` was closed. -/
def trigInv (cfg : ServeCfg) (s : TrigState) : Prop :=
  s.trace = (if s.watcherDone then watcherBody (sigPresent cfg) else []) ∧
    (s.serveDone = true → s.stopClosed = true)

theorem trigInv_init (cfg : ServeCfg) : trigInv cfg initTrig := by
  simp [trigInv, initTrig]

theorem trigInv_step (cfg : ServeCfg) (s s2 : TrigState) (a : TAction)
    (h : trigInv cfg s) (hs : tStep cfg s a = some s2) : trigInv cfg s2 := by
  obtain ⟨h1, h2⟩ := h
  cases a <;> simp only [tStep] at hs <;>
    (split at hs; · cases hs; constructor <;> simp_all [trigInv]
     · cases hs)

theorem trigInv_run (cfg : ServeCfg) (s : TrigState) (l : List TAction)
    (h : trigInv cfg s) : trigInv cfg (tRun cfg s l) := by
  induction l generalizing s with
  | nil => exact h
  | cons a l ih =>
      rw [tRun]
      cases hs : tStep cfg s a with
      | none => exact ih s h
      | some s2 => exact ih s2 (trigInv_step cfg s s2 a h hs)

theorem trigInv_reach (cfg : ServeCfg) (l : List TAction) :
    trigInv cfg (tRun cfg initTrig l) :=
  trigInv_run cfg initTrig l (trigInv_init cfg)

theorem watcherBody_counts (sp : Bool) :
    (watcherBody sp).count WEffect.closeListener = 1 ∧
    (watcherBody sp).count WEffect.disableKeepAlives = 1 ∧
    (sp = true → (watcherBody sp).count WEffect.signalStop = 1 ∧
      (watcherBody sp).count WEffect.closeSigChan = 1) ∧
    WEffect.closeCancelChan ∉ watcherBody sp := by
  cases sp <;> decide

theorem trackerRun_removes_then_stop (f : Conn → Option String) :
    ∀ ms : List TrackerMsg, (∀ m ∈ ms, ∃ c, m = TrackerMsg.remove c) →
      ∀ d : Notifier,
        trackerRun f initTracker (ms ++ [TrackerMsg.stop d]) =
          ((ms.map fun _ => noEffects) ++
            [{ signaled := some d, closedConns := [] }], none) := by
  intro ms
  induction ms with
  | nil =>
      intro _ d
      simp [trackerRun, trackerStep, initTracker]
  | cons m ms ih =>
      intro h d
      obtain ⟨c, rfl⟩ := h m (by simp)
      have step : trackerStep f initTracker (TrackerMsg.remove c) =
          (noEffects, some initTracker) := by
        simp [trackerStep, initTracker, removeConn]
      rw [List.cons_append, trackerRun, step]
      simp [ih (fun m hm => h m (by simp [hm])) d]

/-- Claim C1: after the serve loop returns and drain has begun, with
`Timeout > 0` the server arms a timer and waits for whichever of the
drain notification and the timeout comes first, sending `kill` exactly
when the timeout wins; with `Timeout == 0` it performs an unbounded
bare receive of the drain notification: no timer is armed and `kill` is
never sent. -/
theorem serve_drain_race (err : Option String) (t : Int) (b : Bool) :
    (t > 0 →
      OEffect.armTimer ∈ servePostLoop err t b ∧
      (b = true → OEffect.recvDone ∈ servePostLoop err t b ∧
        OEffect.sendKill ∉ servePostLoop err t b) ∧
      (b = false → OEffect.sendKill ∈ servePostLoop err t b)) ∧
    (t = 0 →
      OEffect.recvDone ∈ servePostLoop err t b ∧
      OEffect.armTimer ∉ servePostLoop err t b ∧
      OEffect.sendKill ∉ servePostLoop err t b) := by
  constructor
  · intro ht
    cases b <;> simp [servePostLoop, ht]
  · intro ht
    subst ht
    simp [servePostLoop]

/-- Concrete instantiation of `serve_drain_race` at a positive timeout
with the timer winning the race. -/
theorem serve_drain_race_witness :
    OEffect.armTimer ∈ servePostLoop none 5 false ∧
    OEffect.sendKill ∈ servePostLoop none 5 false := by
  have h := serve_drain_race none 5 false
  exact ⟨(h.1 (by decide)).1, (h.1 (by decide)).2.2 rfl⟩

/-- Claim C9: a negative `Timeout` behaves exactly like `Timeout == 0`:
the only test before the drain wait is `srv.Timeout > 0`, so for every
non-positive timeout the post-loop trace is the unbounded wait, never
arming a timer and never sending `kill`. -/
theorem nonpositive_timeout_unbounded (err : Option String) (t : Int)
    (b : Bool) (h : t ≤ 0) :
    servePostLoop err t b = servePostLoop err 0 b ∧
    OEffect.sendKill ∉ servePostLoop err t b ∧
    OEffect.armTimer ∉ servePostLoop err t b := by
  have hnot : ¬ t > 0 := by omega
  refine ⟨?_, ?_, ?_⟩ <;> simp [servePostLoop, hnot]

/-- Concrete instantiation of `nonpositive_timeout_unbounded` at
timeout `-3`. -/
theorem nonpositive_timeout_unbounded_witness :
    servePostLoop none (-3) true = servePostLoop none 0 true ∧
    OEffect.sendKill ∉ servePostLoop none (-3) true := by
  have h := nonpositive_timeout_unbounded none (-3) true (by decide)
  exact ⟨h.1, h.2.1⟩

/-- Claim C2: a `stop` (BeginDrain) message reaching a tracker with an
empty tracked set signals the notifier immediately and terminates the
actor; when only `remove` messages ever passed through a fresh tracker
(zero connections ever tracked), the drain request therefore completes
immediately; and a drain completing first never leads to `kill`, for
every timeout value. With a non-empty set, `stop` stores the notifier
and signals nothing. -/
theorem beginDrain_behavior (f : Conn → Option String) (s : TrackerState)
    (d : Notifier) :
    (s.connections = [] →
      trackerStep f s (TrackerMsg.stop d) =
        ({ signaled := some d, closedConns := [] }, none)) ∧
    (s.connections ≠ [] →
      trackerStep f s (TrackerMsg.stop d) =
        (noEffects, some { done := some d, connections := s.connections })) ∧
    (∀ ms : List TrackerMsg, (∀ m ∈ ms, ∃ c, m = TrackerMsg.remove c) →
      trackerRun f initTracker (ms ++ [TrackerMsg.stop d]) =
        ((ms.map fun _ => noEffects) ++
          [{ signaled := some d, closedConns := [] }], none)) ∧
    (∀ t : Int, ∀ e : Option String,
      OEffect.sendKill ∉ servePostLoop e t true) := by
  refine ⟨?_, ?_, ?_, ?_⟩
  · intro h
    simp [trackerStep, h]
  · intro h
    simp [trackerStep, List.isEmpty_iff, h]
  · exact fun ms h => trackerRun_removes_then_stop f ms h d
  · intro t e
    by_cases ht : t > 0 <;> simp [servePostLoop, ht]

/-- Concrete instantiation of `beginDrain_behavior`: a drain request on
a fresh tracker that saw one spurious removal completes at once. -/
theorem beginDrain_behavior_witness :
    trackerRun (fun _ => none) initTracker
        [TrackerMsg.remove 7, TrackerMsg.stop 0] =
      ([noEffects, { signaled := some 0, closedConns := [] }], none) := by
  have h := (beginDrain_behavior (fun _ => none) initTracker 0).2.2.1
    [TrackerMsg.remove 7] (by simp)
  simpa using h

/-- Claim C3: an `remove` (Untrack) message deletes the handle from the
tracked set; when a drain notifier is outstanding and the deletion
empties the set, the notifier is signalled and the actor terminates,
processing no further messages; when no notifier is outstanding, a
removal signals nothing and never terminates the actor. -/
theorem untrack_behavior (f : Conn → Option String) (s : TrackerState)
    (c : Conn) :
    (c ∉ removeConn s.connections c) ∧
    (s.done = none →
      trackerStep f s (TrackerMsg.remove c) =
        (noEffects,
          some { s with connections := removeConn s.connections c })) ∧
    (∀ d, s.done = some d → removeConn s.connections c = [] →
      trackerStep f s (TrackerMsg.remove c) =
        ({ signaled := some d, closedConns := [] }, none)) ∧
    (∀ d, s.done = some d → removeConn s.connections c ≠ [] →
      trackerStep f s (TrackerMsg.remove c) =
        (noEffects,
          some { s with connections := removeConn s.connections c })) ∧
    (∀ ms, s.done.isSome = true → removeConn s.connections c = [] →
      (trackerRun f s (TrackerMsg.remove c :: ms)).1.length = 1 ∧
      (trackerRun f s (TrackerMsg.remove c :: ms)).2 = none) := by
  refine ⟨?_, ?_, ?_, ?_, ?_⟩
  · simp [removeConn, List.mem_filter]
  · intro h
    simp [trackerStep, h]
  · intro d h hcs
    simp [trackerStep, h, hcs]
  · intro d h hcs
    simp [trackerStep, h, List.isEmpty_iff, hcs]
  · intro ms h hcs
    rw [trackerRun]
    simp [trackerStep, h, hcs]

/-- Concrete instantiation of `untrack_behavior`: removing the last
tracked handle while a drain is outstanding signals notifier `0` and
terminates the actor. -/
theorem untrack_behavior_witness :
    trackerStep (fun _ => none) { done := some 0, connections := [5] }
        (TrackerMsg.remove 5) =
      ({ signaled := some 0, closedConns := [] }, none) := by
  exact (untrack_behavior (fun _ => none)
    { done := some 0, connections := [5] } 5).2.2.1 0 rfl (by decide)

/-- Claim C4: a `kill` message closes exactly the currently tracked
connections, surfaces no close error (the step is unchanged under every
assignment of close errors to connections), signals no notifier, and
terminates the actor whatever the drain status, processing no further
messages. -/
theorem kill_behavior (f g : Conn → Option String) (s : TrackerState) :
    trackerStep f s TrackerMsg.kill =
      ({ signaled := none, closedConns := s.connections }, none) ∧
    trackerStep f s TrackerMsg.kill = trackerStep g s TrackerMsg.kill ∧
    (∀ ms, (trackerRun f s (TrackerMsg.kill :: ms)).1 =
      [{ signaled := none, closedConns := s.connections }] ∧
      (trackerRun f s (TrackerMsg.kill :: ms)).2 = none) := by
  refine ⟨rfl, rfl, ?_⟩
  intro ms
  rw [trackerRun]
  exact ⟨rfl, rfl⟩

/-- Claim C5: along every schedule of shutdown-source firings and
watcher scheduling, the effect trace closes the listener at most once;
once the watcher has run, the listener close, the keep-alive disabling
and — when a signal channel is present — the `signal.Stop` and signal
channel close each appear exactly once, and before the watcher runs
none of them has happened: simultaneous firings of several sources
still produce a single teardown. -/
theorem listener_closed_once (cfg : ServeCfg) (l : List TAction) :
    ((tRun cfg initTrig l).trace.count WEffect.closeListener ≤ 1) ∧
    ((tRun cfg initTrig l).watcherDone = true →
      (tRun cfg initTrig l).trace.count WEffect.closeListener = 1 ∧
      (tRun cfg initTrig l).trace.count WEffect.disableKeepAlives = 1 ∧
      (sigPresent cfg = true →
        (tRun cfg initTrig l).trace.count WEffect.signalStop = 1 ∧
        (tRun cfg initTrig l).trace.count WEffect.closeSigChan = 1)) ∧
    ((tRun cfg initTrig l).watcherDone = false →
      (tRun cfg initTrig l).trace = []) := by
  obtain ⟨h1, _⟩ := trigInv_reach cfg l
  obtain ⟨w1, w2, w3, _⟩ := watcherBody_counts (sigPresent cfg)
  cases hw : (tRun cfg initTrig l).watcherDone <;> rw [hw] at h1 <;>
    simp only [if_true, if_false, Bool.false_eq_true, Bool.true_eq_false] at h1
  · simp [h1]
  · rw [h1]
    exact ⟨le_of_eq w1, fun _ => ⟨w1, w2, w3⟩, by simp⟩

/-- Concrete instantiation of `listener_closed_once`: both sources fire
before the watcher runs, and the listener is still closed exactly
once. -/
theorem listener_closed_once_witness :
    (tRun { signalSupplied := true, cancelSupplied := true } initTrig
        [TAction.fireSig, TAction.fireCancel,
          TAction.watcherWake]).trace.count WEffect.closeListener = 1 := by
  exact ((listener_closed_once { signalSupplied := true, cancelSupplied := true }
    [TAction.fireSig, TAction.fireCancel, TAction.watcherWake]).2.1
      (by decide)).1

/-- Claim C6: the installed `ConnState` closure first forwards
`StateActive` events to the `add` channel and `StateClosed`/`StateIdle`
events to the `remove` channel, and then — when the caller supplied an
observer — calls that observer with the same connection and the same
raw state, exactly once, as the last action, for every event; without a
caller observer, no observer call ever occurs. -/
theorem connState_hook_fidelity (h : Bool) (c : Conn) (st : ConnState) :
    ((connStateHook h c ConnState.stateActive).head? =
      some (HookAction.sendAdd c)) ∧
    ((connStateHook h c ConnState.stateClosed).head? =
      some (HookAction.sendRemove c)) ∧
    ((connStateHook h c ConnState.stateIdle).head? =
      some (HookAction.sendRemove c)) ∧
    (h = true →
      (connStateHook h c st).getLast? =
        some (HookAction.callObserver c st) ∧
      (connStateHook h c st).count (HookAction.callObserver c st) = 1) ∧
    (h = false →
      ∀ c2 st2, HookAction.callObserver c2 st2 ∉ connStateHook h c st) := by
  refine ⟨?_, ?_, ?_, ?_, ?_⟩
  · cases h <;> rfl
  · cases h <;> rfl
  · cases h <;> rfl
  · rintro rfl
    cases st <;> simp [connStateHook]
  · rintro rfl c2 st2
    cases st <;> simp [connStateHook]

/-- Concrete instantiation of `connState_hook_fidelity`: with an
observer installed, an idle event is forwarded to `remove` and then
reported to the observer. -/
theorem connState_hook_fidelity_witness :
    (connStateHook true 3 ConnState.stateIdle).getLast? =
      some (HookAction.callObserver 3 ConnState.stateIdle) :=
  ((connState_hook_fidelity true 3 ConnState.stateIdle).2.2.2.1 rfl).1

/-- Claim C7 counterexample: an interleaving in which `Serve` has
returned while the watcher goroutine has not yet run its body: the
orchestrator closes `stopListener` and returns before the watcher is
scheduled, so the watcher has not terminated by the time `Serve`
returns. -/
theorem serve_can_return_before_watcher :
    (tRun { signalSupplied := true, cancelSupplied := false } initTrig
      [TAction.closeStop, TAction.serveRet]).serveDone = true ∧
    (tRun { signalSupplied := true, cancelSupplied := false } initTrig
      [TAction.closeStop, TAction.serveRet]).watcherDone = false := by
  decide

/-- Claim C7 amended: on every return path `Serve` raises the internal
stop notice (`close(stopListener)`) as its first post-loop step, before
returning; in every reachable state in which `Serve` has returned the
stop notice has been raised; and whenever the notice is raised and the
watcher has not yet run, the watcher wake step is enabled and completes
the watcher in one step — the watcher is never left blocked forever,
though `Serve` does not wait for it to finish before returning. -/
theorem watcher_never_blocked (cfg : ServeCfg) (l : List TAction)
    (err : Option String) (t : Int) (b : Bool) :
    ((servePostLoop err t b).head? = some OEffect.closeStopListener) ∧
    ((tRun cfg initTrig l).serveDone = true →
      (tRun cfg initTrig l).stopClosed = true) ∧
    ((tRun cfg initTrig l).stopClosed = true →
      (tRun cfg initTrig l).watcherDone = false →
      ∃ s2, tStep cfg (tRun cfg initTrig l) TAction.watcherWake = some s2 ∧
        s2.watcherDone = true) := by
  refine ⟨rfl, (trigInv_reach cfg l).2, ?_⟩
  intro h1 h2
  have hstep : tStep cfg (tRun cfg initTrig l) TAction.watcherWake =
      some { (tRun cfg initTrig l) with
             watcherDone := true
             trace := (tRun cfg initTrig l).trace ++
               watcherBody (sigPresent cfg) } := by
    simp [tStep, h1, h2]
  exact ⟨_, hstep, rfl⟩

/-- Concrete instantiation of `watcher_never_blocked`: after the stop
notice, the watcher wake step is enabled and finishes the watcher. -/
theorem watcher_never_blocked_witness :
    ∃ s2, tStep { signalSupplied := false, cancelSupplied := false }
        (tRun { signalSupplied := false, cancelSupplied := false } initTrig
          [TAction.closeStop]) TAction.watcherWake = some s2 ∧
      s2.watcherDone = true :=
  (watcher_never_blocked { signalSupplied := false, cancelSupplied := false }
    [TAction.closeStop] none 0 true).2.2 (by decide) (by decide)

/-- Claim C8: when the certificate pair fails to load,
`ListenAndServeTLS` returns that very error, no listener is opened and
the core is never started; and whenever the copied configuration has no
`NextProtos` list — including when no `TLSConfig` was supplied at all —
the configuration carries `["http/1.1"]` at the point of use, on every
path. -/
theorem listenAndServeTLS_behavior (supplied : Option TLSCfg) (e : String)
    (listenErr serveErr : Option String) :
    (listenAndServeTLS supplied (some e) listenErr serveErr).retErr =
      some e ∧
    (listenAndServeTLS supplied (some e) listenErr
      serveErr).listenerOpened = false ∧
    (listenAndServeTLS supplied (some e) listenErr
      serveErr).serveStarted = false ∧
    (∀ loadErr : Option String,
      (supplied = none ∨ ∃ c, supplied = some c ∧ c.nextProtos = none) →
      (listenAndServeTLS supplied loadErr listenErr serveErr).nextProtos =
        some ["http/1.1"]) := by
  refine ⟨?_, ?_, ?_, ?_⟩
  · cases supplied <;> simp [listenAndServeTLS]
  · cases supplied <;> simp [listenAndServeTLS]
  · cases supplied <;> simp [listenAndServeTLS]
  · rintro loadErr h
    rcases h with rfl | ⟨c, rfl, hc⟩
    · cases loadErr <;> cases listenErr <;> simp [listenAndServeTLS]
    · cases loadErr <;> cases listenErr <;> simp [listenAndServeTLS, hc]

/-- Concrete instantiation of `listenAndServeTLS_behavior`: a failing
certificate load is returned with nothing opened, and the default
protocol list is installed. -/
theorem listenAndServeTLS_behavior_witness :
    (listenAndServeTLS none (some "bad pair") none none).retErr =
      some "bad pair" ∧
    (listenAndServeTLS none (some "bad pair") none none).listenerOpened =
      false ∧
    (listenAndServeTLS none (some "bad pair") none none).nextProtos =
      some ["http/1.1"] := by
  have h := listenAndServeTLS_behavior none "bad pair" none none
  exact ⟨h.1, h.2.1, h.2.2.2 (some "bad pair") (Or.inl rfl)⟩

/-- Claim C10: whenever a signal channel is in use — the caller-supplied
one, or the internally created default when neither shutdown channel was
supplied — the watcher teardown calls `signal.Stop` on it and then
closes it, before disabling keep-alives and closing the listener; in
particular a caller-supplied `Signal` channel is closed by the library.
The `Cancel` channel is never closed, on any interleaving. -/
theorem signal_teardown (cfg : ServeCfg) (l : List TAction) :
    (cfg.signalSupplied = true → sigPresent cfg = true) ∧
    (sigPresent cfg = true →
      watcherBody (sigPresent cfg) =
        [WEffect.signalStop, WEffect.closeSigChan,
          WEffect.disableKeepAlives, WEffect.closeListener]) ∧
    (sigPresent cfg = false →
      watcherBody (sigPresent cfg) =
        [WEffect.disableKeepAlives, WEffect.closeListener]) ∧
    WEffect.closeCancelChan ∉ (tRun cfg initTrig l).trace := by
  refine ⟨?_, ?_, ?_, ?_⟩
  · intro h
    simp [sigPresent, h]
  · intro h
    rw [h]
    rfl
  · intro h
    rw [h]
    rfl
  · obtain ⟨h1, _⟩ := trigInv_reach cfg l
    rw [h1]
    obtain ⟨_, _, _, h4⟩ := watcherBody_counts (sigPresent cfg)
    cases (tRun cfg initTrig l).watcherDone <;> simp [h4]

/-- Concrete instantiation of `signal_teardown`: with a caller-supplied
`Signal` channel, the teardown stops signals on it and then closes it. -/
theorem signal_teardown_witness :
    watcherBody (sigPresent { signalSupplied := true, cancelSupplied := true }) =
      [WEffect.signalStop, WEffect.closeSigChan,
        WEffect.disableKeepAlives, WEffect.closeListener] :=
  (signal_teardown { signalSupplied := true, cancelSupplied := true } []).2.1
    ((signal_teardown { signalSupplied := true, cancelSupplied := true } []).1
      rfl)

end Graceful
